import Mathlib

/-!
Verification development for the gateway-resolution and frame-transport core
of the trex-emu repository (files `src/emu/core/client_ctx.go` and the ZMQ
veth transport file).  Go values are embedded shallowly: byte slices become
`List Nat` (entries are byte values 0..255), machine-integer arithmetic is
made explicit with `% 2 ^ w` exactly where the Go code masks or where the Go
type can wrap on the inputs exercised, fallible code (Go run-time panics such
as slice-bounds or array-index violations) returns `Option`, and struct
methods become functions on explicit state records.
-/

namespace TrexEmu

/-- A 6-byte `MACKey` (`[6]byte` in Go), embedded as a list of byte values. -/
abbrev MACKey := List Nat

/-- A 4-byte `Ipv4Key` (`[4]byte` in Go). -/
abbrev Ipv4Key := List Nat

/-- A 16-byte `Ipv6Key` (`[16]byte` in Go). -/
abbrev Ipv6Key := List Nat

/-- The zero value of a Go `MACKey` (all bytes zero), used for Go's
zero-initialized named return values. -/
def macZero : MACKey := List.replicate 6 0

/-- The zero value of a Go `Ipv6Key`. -/
def ipv6Zero : Ipv6Key := List.replicate 16 0

/-- Modelled from the spec: `Ipv6Key.IsZero` is defined outside the given
source files; per the data model it reports whether the address is the
all-zero address. -/
def ipv6IsZero (k : Ipv6Key) : Bool := k.all (fun b => b == 0)

/-- Big-endian 16-bit read at index `i` (callers have bounds-checked;
`getD` supplies Go's in-bounds bytes). -/
def u16at (p : List Nat) (i : Nat) : Nat := p.getD i 0 * 256 + p.getD (i + 1) 0

/-- Big-endian 32-bit read at index `i`. -/
def u32at (p : List Nat) (i : Nat) : Nat := u16at p i * 65536 + u16at p (i + 2)

/-- Big-endian byte serialization of a `uint32` value
(`binary.BigEndian.PutUint32`). -/
def u32bytes (v : Nat) : List Nat :=
  [v / 16777216 % 256, v / 65536 % 256, v / 256 % 256, v % 256]

/-- Go's `CClientDg` — default-gateway binding: a resolved-or-not flag and the
gateway MAC (`client_ctx.go`). -/
structure CClientDg where
  ipdgResolved : Bool
  ipdgMac : MACKey
deriving Repr, DecidableEq

/-- Go's `CClientIpv6Nd` — router-advertisement snapshot: MTU, router MAC,
advertised prefix, prefix length, router-assigned address. -/
structure CClientIpv6Nd where
  mtu : Nat
  dgMac : MACKey
  prefixIpv6 : Ipv6Key
  prefixLen : Nat
  ipv6 : Ipv6Key
deriving Repr, DecidableEq

/-- Go's `CClient` — the fields of the Go struct that the resolution state
machine and the gateway queries read or write.  Go nil-able pointers become
`Option`; the timer object is represented by its running/stopped state
(`timerArmed`), and `PluginCtx.BroadcastMsg` notifications are recorded in
an event list (payload: the bitmask value broadcast). -/
structure CClient where
  mac : MACKey
  ipv4 : Ipv4Key
  dgIpv4 : Ipv4Key
  mtu : Nat
  dgw : Option CClientDg
  ipv6Router : Option CClientIpv6Nd
  ipv6DGW : Option CClientDg
  ipv6 : Ipv6Key
  dgIpv6 : Ipv6Key
  dhcpv6 : Ipv6Key
  ipv6ForceDGW : Bool
  ipv6ForcedgMac : MACKey
  forceDGW : Bool
  ipv4ForcedgMac : MACKey
  bitMask : Nat
  resolveAttempts : Nat
  maxResolveAttempts : Nat
  timerArmed : Bool
  notifications : List Nat
deriving Repr, DecidableEq

/-- Modelled from the spec: the bitmask constants `RESOLVED_IPV4_DG_MAC` and
`RESOLVED_IPV6_DG_MAC` are declared outside the given source files; the spec
fixes one bit per address family, so they are two distinct single bits. -/
def RESOLVED_IPV4_DG_MAC : Nat := 1

/-- Modelled from the spec: the IPv6 family's resolved bit (see
`RESOLVED_IPV4_DG_MAC`). -/
def RESOLVED_IPV6_DG_MAC : Nat := 2

/-- Go's `NewClient` — creates a client with the given key fields; every other
field takes Go's zero value (nil pointers, zero addresses, zero counters,
idle timer); `MTU` is set to 1500. -/
def newClient (mac : MACKey) (ipv4 : Ipv4Key) (ipv6 : Ipv6Key) (dgIpv4 : Ipv4Key) :
    CClient :=
  { mac := mac
    ipv4 := ipv4
    dgIpv4 := dgIpv4
    mtu := 1500
    dgw := none
    ipv6Router := none
    ipv6DGW := none
    ipv6 := ipv6
    dgIpv6 := ipv6Zero
    dhcpv6 := ipv6Zero
    ipv6ForceDGW := false
    ipv6ForcedgMac := macZero
    forceDGW := false
    ipv4ForcedgMac := macZero
    bitMask := 0
    resolveAttempts := 0
    maxResolveAttempts := 0
    timerArmed := false
    notifications := [] }

/-- Go's `ResolveIPv4DGMac` — forced MAC wins; else a resolved gateway binding;
else the zero-value named returns `(mac, false)`. -/
def resolveIPv4DGMac (o : CClient) : MACKey × Bool :=
  if o.forceDGW then (o.ipv4ForcedgMac, true)
  else
    match o.dgw with
    | some dg => if dg.ipdgResolved then (dg.ipdgMac, true) else (macZero, false)
    | none => (macZero, false)

/-- Go's `ResolveIPv6DGMac` — forced MAC wins; else a resolved gateway binding;
else a router snapshot's MAC; else unresolved. -/
def resolveIPv6DGMac (o : CClient) : MACKey × Bool :=
  if o.ipv6ForceDGW then (o.ipv6ForcedgMac, true)
  else
    match o.ipv6DGW with
    | some dg =>
        if dg.ipdgResolved then (dg.ipdgMac, true)
        else
          match o.ipv6Router with
          | some nd => (nd.dgMac, true)
          | none => (macZero, false)
    | none =>
        match o.ipv6Router with
        | some nd => (nd.dgMac, true)
        | none => (macZero, false)

/-- Go's `ResolveDGIPv6` — gateway-address query: the statically configured
gateway address if non-zero, then (sequentially overriding it) the router
snapshot's advertised address whenever a snapshot is present. -/
def resolveDGIPv6 (o : CClient) : Ipv6Key × Bool :=
  let r0 : Ipv6Key × Bool :=
    if ¬ ipv6IsZero o.dgIpv6 then (o.dgIpv6, true) else (ipv6Zero, false)
  match o.ipv6Router with
  | some nd => (nd.ipv6, true)
  | none => r0

/-- Go's `ResolveDGv6` — combined address+MAC query: when the static gateway
address is non-zero it is used (with the forced or resolved MAC, else the
query fails); only when it is zero does the router snapshot supply both. -/
def resolveDGv6 (o : CClient) : Ipv6Key × MACKey × Bool :=
  if ¬ ipv6IsZero o.dgIpv6 then
    if o.ipv6ForceDGW then (o.dgIpv6, o.ipv6ForcedgMac, true)
    else
      match o.ipv6DGW with
      | some dg =>
          if dg.ipdgResolved then (o.dgIpv6, dg.ipdgMac, true)
          else (ipv6Zero, macZero, false)
      | none => (ipv6Zero, macZero, false)
  else
    match o.ipv6Router with
    | some nd => (nd.ipv6, nd.dgMac, true)
    | none => (ipv6Zero, macZero, false)

/-- Go's `OnEvent` — the timer tick handler.  For each family not yet marked in
the bitmask, consult the resolver and set the family's bit on success; if
anything newly resolved, broadcast one notification carrying the updated
bitmask; if retries remain and a family is still unresolved, increment the
retry counter and re-arm the timer, otherwise the timer (which has just
fired, or was never started) stays stopped. -/
def onEvent (o : CClient) : CClient :=
  let ipv4r0 := (o.bitMask &&& RESOLVED_IPV4_DG_MAC) == RESOLVED_IPV4_DG_MAC
  let ipv6r0 := (o.bitMask &&& RESOLVED_IPV6_DG_MAC) == RESOLVED_IPV6_DG_MAC
  let v4new := !ipv4r0 && (resolveIPv4DGMac o).2
  let v6new := !ipv6r0 && (resolveIPv6DGMac o).2
  let ipv4r := ipv4r0 || v4new
  let ipv6r := ipv6r0 || v6new
  let mask1 := if v4new then o.bitMask ||| RESOLVED_IPV4_DG_MAC else o.bitMask
  let mask2 := if v6new then mask1 ||| RESOLVED_IPV6_DG_MAC else mask1
  let rearm := (o.resolveAttempts < o.maxResolveAttempts) && (!ipv4r || !ipv6r)
  { o with
    bitMask := mask2
    notifications :=
      if v4new || v6new then o.notifications ++ [mask2] else o.notifications
    resolveAttempts := if rearm then o.resolveAttempts + 1 else o.resolveAttempts
    timerArmed := rearm }

/-- Go's `AttemptResolve` — sets the retry ceiling to 5, initializes the timer
callback, and performs one resolution check synchronously (`OnEvent`) before
any timer is armed.  It does not write the retry counter. -/
def attemptResolve (o : CClient) : CClient :=
  onEvent { o with maxResolveAttempts := 5 }

/-- Claim C1: gateway MAC resolution precedence.  IPv4: forced MAC wins,
else a resolved gateway binding's MAC, else unresolved.  IPv6: the same two
levels, then a router snapshot's MAC, and unresolved only when none of the
three is available. -/
theorem c1_gateway_mac_precedence (c : CClient) :
    (c.forceDGW = true → resolveIPv4DGMac c = (c.ipv4ForcedgMac, true)) ∧
    (c.forceDGW = false → ∀ dg, c.dgw = some dg → dg.ipdgResolved = true →
      resolveIPv4DGMac c = (dg.ipdgMac, true)) ∧
    (c.forceDGW = false →
      (c.dgw = none ∨ ∃ dg, c.dgw = some dg ∧ dg.ipdgResolved = false) →
      (resolveIPv4DGMac c).2 = false) ∧
    (c.ipv6ForceDGW = true → resolveIPv6DGMac c = (c.ipv6ForcedgMac, true)) ∧
    (c.ipv6ForceDGW = false → ∀ dg, c.ipv6DGW = some dg → dg.ipdgResolved = true →
      resolveIPv6DGMac c = (dg.ipdgMac, true)) ∧
    (c.ipv6ForceDGW = false →
      (c.ipv6DGW = none ∨ ∃ dg, c.ipv6DGW = some dg ∧ dg.ipdgResolved = false) →
      ∀ nd, c.ipv6Router = some nd → resolveIPv6DGMac c = (nd.dgMac, true)) ∧
    (c.ipv6ForceDGW = false →
      (c.ipv6DGW = none ∨ ∃ dg, c.ipv6DGW = some dg ∧ dg.ipdgResolved = false) →
      c.ipv6Router = none → (resolveIPv6DGMac c).2 = false) := by
  refine ⟨?_, ?_, ?_, ?_, ?_, ?_, ?_⟩
  · intro h; simp [resolveIPv4DGMac, h]
  · intro h dg hdg hres; simp [resolveIPv4DGMac, h, hdg, hres]
  · intro h hcase
    rcases hcase with hnone | ⟨dg, hdg, hres⟩
    · simp [resolveIPv4DGMac, h, hnone]
    · simp [resolveIPv4DGMac, h, hdg, hres]
  · intro h; simp [resolveIPv6DGMac, h]
  · intro h dg hdg hres; simp [resolveIPv6DGMac, h, hdg, hres]
  · intro h hcase nd hnd
    rcases hcase with hnone | ⟨dg, hdg, hres⟩
    · simp [resolveIPv6DGMac, h, hnone, hnd]
    · simp [resolveIPv6DGMac, h, hdg, hres, hnd]
  · intro h hcase hnone6
    rcases hcase with hnone | ⟨dg, hdg, hres⟩
    · simp [resolveIPv6DGMac, h, hnone, hnone6]
    · simp [resolveIPv6DGMac, h, hdg, hres, hnone6]

/-- A concrete client exercising the forced-IPv4 and router-fallback IPv6
paths of the resolver. -/
def c1ClientA : CClient :=
  { newClient [1, 2, 3, 4, 5, 6] [10, 0, 0, 1] ipv6Zero [10, 0, 0, 254] with
    forceDGW := true
    ipv4ForcedgMac := [0xaa, 0xbb, 0xcc, 0xdd, 0xee, 0xff]
    ipv6Router := some
      { mtu := 1500
        dgMac := [9, 8, 7, 6, 5, 4]
        prefixIpv6 := ipv6Zero
        prefixLen := 64
        ipv6 := ipv6Zero } }

/-- Witness for C1: the precedence theorem applied at a concrete client, one
branch per precedence level that the client exercises. -/
theorem c1_gateway_mac_precedence_witness :
    resolveIPv4DGMac c1ClientA = ([0xaa, 0xbb, 0xcc, 0xdd, 0xee, 0xff], true) ∧
    resolveIPv6DGMac c1ClientA = ([9, 8, 7, 6, 5, 4], true) := by
  refine ⟨(c1_gateway_mac_precedence c1ClientA).1 rfl, ?_⟩
  exact (c1_gateway_mac_precedence c1ClientA).2.2.2.2.2.1 rfl (Or.inl rfl)
    { mtu := 1500
      dgMac := [9, 8, 7, 6, 5, 4]
      prefixIpv6 := ipv6Zero
      prefixLen := 64
      ipv6 := ipv6Zero } rfl

/-- Absorbing a freshly or-ed value: `x &&& (x ||| y) = x`. -/
theorem and_or_absorb (x y : Nat) : x &&& (x ||| y) = x := by
  apply Nat.eq_of_testBit_eq
  intro i
  cases hx : x.testBit i <;> simp [Nat.testBit_and, Nat.testBit_or, hx]

/-- Or-ing then masking with the same value: `(x ||| y) &&& y = y`. -/
theorem or_and_self (x y : Nat) : (x ||| y) &&& y = y := by
  apply Nat.eq_of_testBit_eq
  intro i
  cases hy : y.testBit i <;> simp [Nat.testBit_and, Nat.testBit_or, hy]

/-- Or-ing a value disjoint from the mask does not change the masked bits. -/
theorem or_and_of_disjoint {y z : Nat} (h : y &&& z = 0) (x : Nat) :
    (x ||| y) &&& z = x &&& z := by
  apply Nat.eq_of_testBit_eq
  intro i
  have h' : (y &&& z).testBit i = false := by rw [h]; exact Nat.zero_testBit i
  rw [Nat.testBit_and] at h'
  cases hy : y.testBit i <;> cases hz : z.testBit i <;>
    simp_all [Nat.testBit_and, Nat.testBit_or]

/-- One tick keeps every bit that was already set: the new bitmask is built
from the old one with `|||` only. -/
theorem onEvent_bitMask_superset (c : CClient) :
    c.bitMask &&& (onEvent c).bitMask = c.bitMask := by
  show c.bitMask &&&
      (if _ then (if _ then c.bitMask ||| RESOLVED_IPV4_DG_MAC else c.bitMask) |||
          RESOLVED_IPV6_DG_MAC
       else if _ then c.bitMask ||| RESOLVED_IPV4_DG_MAC else c.bitMask) = c.bitMask
  split <;> split
  · rw [Nat.or_assoc]; exact and_or_absorb _ _
  · exact and_or_absorb _ _
  · exact and_or_absorb _ _
  · exact Nat.and_self _

/-- Claim C4: the resolved-bitmask is monotonically non-decreasing across
tick-handler invocations — after any `n` ticks, every bit set at tick `n` is
still set at tick `n + 1` (set-containment expressed with `&&&`). -/
theorem c4_bitmask_monotone (c : CClient) (n : Nat) :
    (onEvent^[n] c).bitMask &&& (onEvent^[n + 1] c).bitMask =
      (onEvent^[n] c).bitMask := by
  rw [Function.iterate_succ_apply']
  exact onEvent_bitMask_superset (onEvent^[n] c)

/-- A concrete client whose IPv4 gateway MAC is forced, used as counter- and
witness input for the start-operation claims. -/
def c6ForcedClient : CClient :=
  { newClient [2, 0, 0, 0, 0, 1] [10, 0, 0, 1] ipv6Zero [10, 0, 0, 254] with
    resolveAttempts := 3
    forceDGW := true
    ipv4ForcedgMac := [0xaa, 0xbb, 0xcc, 0xdd, 0xee, 0xff]
    ipv6ForceDGW := true
    ipv6ForcedgMac := [0xaa, 0xbb, 0xcc, 0xdd, 0xee, 0x01] }

/-- Counterexample for C6: `AttemptResolve` does not reset the retry counter
to 0 — on a client whose counter is 3 (and whose gateways are forced, so the
tick does not increment it either) the counter is still 3 afterwards. -/
theorem c6_no_counter_reset_counterexample :
    (attemptResolve c6ForcedClient).resolveAttempts = 3 ∧
    ¬ (attemptResolve c6ForcedClient).resolveAttempts = 0 := by
  constructor <;> decide

/-- Claim C6 (amended): `AttemptResolve` sets max-retries to 5 and performs
one resolution check synchronously (`OnEvent`) before any timer is armed; it
never writes the retry counter itself (the tick may increment it), and the
counter is 0 on a freshly created client because `NewClient` zero-initializes
it.  Consequently a fresh client with a forced IPv4 gateway MAC has the IPv4
bit set by that first synchronous check, with the counter still 0 when the
check runs. -/
theorem c6_attemptResolve_start (c : CClient) (mac : MACKey) (i4 d4 : Ipv4Key)
    (i6 : Ipv6Key) (fm : MACKey) :
    (attemptResolve c).maxResolveAttempts = 5 ∧
    attemptResolve c = onEvent { c with maxResolveAttempts := 5 } ∧
    ((attemptResolve c).resolveAttempts = c.resolveAttempts ∨
      (attemptResolve c).resolveAttempts = c.resolveAttempts + 1) ∧
    (newClient mac i4 i6 d4).resolveAttempts = 0 ∧
    ((attemptResolve
        { newClient mac i4 i6 d4 with forceDGW := true, ipv4ForcedgMac := fm
        }).bitMask &&& RESOLVED_IPV4_DG_MAC = RESOLVED_IPV4_DG_MAC ∧
      { newClient mac i4 i6 d4 with forceDGW := true, ipv4ForcedgMac := fm
        }.resolveAttempts = 0) := by
  refine ⟨rfl, rfl, ?_, rfl, ?_, rfl⟩
  · show (if h : _ then _ else _) = c.resolveAttempts ∨
      (if h : _ then _ else _) = c.resolveAttempts + 1
    split
    · right; rfl
    · left; rfl
  · show ((if _ then _ else _ : Nat) &&& RESOLVED_IPV4_DG_MAC) = RESOLVED_IPV4_DG_MAC
    simp [onEvent, newClient, resolveIPv4DGMac, resolveIPv6DGMac,
      RESOLVED_IPV4_DG_MAC, RESOLVED_IPV6_DG_MAC]

/-- Go's `OnEvent` never changes the retry ceiling. -/
theorem onEvent_maxResolveAttempts (c : CClient) :
    (onEvent c).maxResolveAttempts = c.maxResolveAttempts := rfl

/-- One tick keeps the retry counter within the ceiling. -/
theorem onEvent_att_le {c : CClient}
    (h : c.resolveAttempts ≤ c.maxResolveAttempts) :
    (onEvent c).resolveAttempts ≤ (onEvent c).maxResolveAttempts := by
  show (if _ then c.resolveAttempts + 1 else c.resolveAttempts) ≤
    c.maxResolveAttempts
  split
  · next hcond =>
      have := (Bool.and_eq_true _ _).mp hcond
      have hlt : c.resolveAttempts < c.maxResolveAttempts :=
        of_decide_eq_true this.1
      exact hlt
  · exact h

/-- Along any tick sequence the counter stays within the (unchanged)
ceiling. -/
theorem iterate_att_le {c : CClient}
    (h : c.resolveAttempts ≤ c.maxResolveAttempts) (n : Nat) :
    (onEvent^[n] c).resolveAttempts ≤ (onEvent^[n] c).maxResolveAttempts ∧
    (onEvent^[n] c).maxResolveAttempts = c.maxResolveAttempts := by
  induction n with
  | zero => exact ⟨h, rfl⟩
  | succ k ih =>
      rw [Function.iterate_succ_apply']
      exact ⟨onEvent_att_le ih.1,
        (onEvent_maxResolveAttempts _).trans ih.2⟩

/-- The IPv4 family has no gateway source at all (no forced MAC, no resolved
binding) and its bit is still clear. -/
def V4Unresolvable (c : CClient) : Prop :=
  c.forceDGW = false ∧ (∀ dg, c.dgw = some dg → dg.ipdgResolved = false) ∧
  c.bitMask &&& RESOLVED_IPV4_DG_MAC = 0

/-- The IPv6 family has no gateway source at all (no forced MAC, no resolved
binding, no router snapshot) and its bit is still clear. -/
def V6Unresolvable (c : CClient) : Prop :=
  c.ipv6ForceDGW = false ∧
  (∀ dg, c.ipv6DGW = some dg → dg.ipdgResolved = false) ∧
  c.ipv6Router = none ∧ c.bitMask &&& RESOLVED_IPV6_DG_MAC = 0

/-- With no IPv4 gateway source the resolver reports unresolved. -/
theorem resolveIPv4_fail {c : CClient} (h1 : c.forceDGW = false)
    (h2 : ∀ dg, c.dgw = some dg → dg.ipdgResolved = false) :
    (resolveIPv4DGMac c).2 = false := by
  unfold resolveIPv4DGMac
  rw [h1]
  cases hd : c.dgw with
  | none => simp
  | some dg => simp [h2 dg hd]

/-- With no IPv6 gateway source the resolver reports unresolved. -/
theorem resolveIPv6_fail {c : CClient} (h1 : c.ipv6ForceDGW = false)
    (h2 : ∀ dg, c.ipv6DGW = some dg → dg.ipdgResolved = false)
    (h3 : c.ipv6Router = none) :
    (resolveIPv6DGMac c).2 = false := by
  unfold resolveIPv6DGMac
  rw [h1]
  cases hd : c.ipv6DGW with
  | none => simp [h3]
  | some dg => simp [h2 dg hd, h3]

/-- One tick of a client whose IPv4 family is unresolvable: the predicate is
preserved, the ceiling is unchanged, and the counter/timed behaviour depends
only on `resolveAttempts < maxResolveAttempts`. -/
theorem onEvent_v4u {c : CClient} (h : V4Unresolvable c) :
    V4Unresolvable (onEvent c) ∧
    (onEvent c).resolveAttempts =
      (if c.resolveAttempts < c.maxResolveAttempts then c.resolveAttempts + 1
       else c.resolveAttempts) ∧
    (onEvent c).timerArmed = decide (c.resolveAttempts < c.maxResolveAttempts) := by
  obtain ⟨h1, h2, h3⟩ := h
  have hres : (resolveIPv4DGMac c).2 = false := resolveIPv4_fail h1 h2
  have hr0 : ((c.bitMask &&& RESOLVED_IPV4_DG_MAC) == RESOLVED_IPV4_DG_MAC) = false := by
    rw [h3]; rfl
  refine ⟨⟨h1, h2, ?_⟩, ?_, ?_⟩
  · simp only [onEvent, hr0, hres, Bool.not_false, Bool.true_and, Bool.and_false,
      Bool.false_or, Bool.false_and, if_false, Bool.false_eq_true]
    split
    · rw [or_and_of_disjoint (by decide)]
      exact h3
    · exact h3
  · simp only [onEvent, hr0, hres, Bool.not_false, Bool.true_and, Bool.and_false,
      Bool.false_or, Bool.true_or, Bool.and_true, Bool.not_true]
    rcases Nat.lt_or_ge c.resolveAttempts c.maxResolveAttempts with hlt | hge
    · simp [hlt]
    · simp [Nat.not_lt_of_le hge]
  · simp only [onEvent, hr0, hres, Bool.not_false, Bool.true_and, Bool.and_false,
      Bool.false_or, Bool.true_or, Bool.and_true, Bool.not_true]

/-- One tick of a client whose IPv6 family is unresolvable (mirror of
`onEvent_v4u`). -/
theorem onEvent_v6u {c : CClient} (h : V6Unresolvable c) :
    V6Unresolvable (onEvent c) ∧
    (onEvent c).resolveAttempts =
      (if c.resolveAttempts < c.maxResolveAttempts then c.resolveAttempts + 1
       else c.resolveAttempts) ∧
    (onEvent c).timerArmed = decide (c.resolveAttempts < c.maxResolveAttempts) := by
  obtain ⟨h1, h2, h3, h4⟩ := h
  have hres : (resolveIPv6DGMac c).2 = false := resolveIPv6_fail h1 h2 h3
  have hr0 : ((c.bitMask &&& RESOLVED_IPV6_DG_MAC) == RESOLVED_IPV6_DG_MAC) = false := by
    rw [h4]; rfl
  refine ⟨⟨h1, h2, h3, ?_⟩, ?_, ?_⟩
  · simp only [onEvent, hr0, hres, Bool.not_false, Bool.true_and, Bool.and_false,
      Bool.false_or, Bool.false_and, if_false, Bool.false_eq_true]
    split
    · rw [or_and_of_disjoint (by decide)]
      exact h4
    · exact h4
  · simp only [onEvent, hr0, hres, Bool.not_false, Bool.true_and, Bool.and_false,
      Bool.false_or, Bool.or_false, Bool.or_true, Bool.and_true, Bool.not_true]
    rcases Nat.lt_or_ge c.resolveAttempts c.maxResolveAttempts with hlt | hge
    · simp [hlt]
    · simp [Nat.not_lt_of_le hge]
  · simp only [onEvent, hr0, hres, Bool.not_false, Bool.true_and, Bool.and_false,
      Bool.false_or, Bool.or_false, Bool.or_true, Bool.and_true, Bool.not_true]

/-- Claim C5: the retry counter never exceeds the max-retries limit of 5
installed by `AttemptResolve`, and a client with no gateway source at all for
one family (no forced MAC, no resolved binding, no router snapshot) reaches,
after the synchronous start check and 5 subsequent ticks, retry counter 5
with the timer stopped and that family's bit still unset; resolution failure
raises no error (`onEvent` is total and only updates the state). -/
theorem c5_retry_bound_and_exhaustion :
    (∀ (c : CClient) (n : Nat), c.resolveAttempts ≤ 5 →
      (onEvent^[n] (attemptResolve c)).resolveAttempts ≤ 5) ∧
    (∀ c : CClient, V4Unresolvable c → c.resolveAttempts = 0 →
      (onEvent^[5] (attemptResolve c)).resolveAttempts = 5 ∧
      (onEvent^[5] (attemptResolve c)).timerArmed = false ∧
      (onEvent^[5] (attemptResolve c)).bitMask &&& RESOLVED_IPV4_DG_MAC = 0) ∧
    (∀ c : CClient, V6Unresolvable c → c.resolveAttempts = 0 →
      (onEvent^[5] (attemptResolve c)).resolveAttempts = 5 ∧
      (onEvent^[5] (attemptResolve c)).timerArmed = false ∧
      (onEvent^[5] (attemptResolve c)).bitMask &&& RESOLVED_IPV6_DG_MAC = 0) := by
  refine ⟨?_, ?_, ?_⟩
  · intro c n h
    have h0 : ({ c with maxResolveAttempts := 5 } : CClient).resolveAttempts ≤
        ({ c with maxResolveAttempts := 5 } : CClient).maxResolveAttempts := h
    have h2 := iterate_att_le (onEvent_att_le h0) n
    exact h2.1.trans (Nat.le_of_eq h2.2)
  · intro c hu h0
    have m0 : ({ c with maxResolveAttempts := 5 } : CClient).maxResolveAttempts = 5 := rfl
    have hc0 : V4Unresolvable { c with maxResolveAttempts := 5 } :=
      ⟨hu.1, hu.2.1, hu.2.2⟩
    obtain ⟨u1, a1, t1⟩ := onEvent_v4u hc0
    obtain ⟨u2, a2, t2⟩ := onEvent_v4u u1
    obtain ⟨u3, a3, t3⟩ := onEvent_v4u u2
    obtain ⟨u4, a4, t4⟩ := onEvent_v4u u3
    obtain ⟨u5, a5, t5⟩ := onEvent_v4u u4
    obtain ⟨u6, a6, t6⟩ := onEvent_v4u u5
    have e1 : (onEvent { c with maxResolveAttempts := 5 }).resolveAttempts = 1 := by
      rw [a1]
      show (if c.resolveAttempts < 5 then c.resolveAttempts + 1
        else c.resolveAttempts) = 1
      rw [h0]
      decide
    have e2 : (onEvent (onEvent { c with maxResolveAttempts := 5 })).resolveAttempts = 2 := by
      rw [a2, e1]
      simp [onEvent_maxResolveAttempts, m0]
    have e3 : (onEvent (onEvent (onEvent
        { c with maxResolveAttempts := 5 }))).resolveAttempts = 3 := by
      rw [a3, e2]
      simp [onEvent_maxResolveAttempts, m0]
    have e4 : (onEvent (onEvent (onEvent (onEvent
        { c with maxResolveAttempts := 5 })))).resolveAttempts = 4 := by
      rw [a4, e3]
      simp [onEvent_maxResolveAttempts, m0]
    have e5 : (onEvent (onEvent (onEvent (onEvent (onEvent
        { c with maxResolveAttempts := 5 }))))).resolveAttempts = 5 := by
      rw [a5, e4]
      simp [onEvent_maxResolveAttempts, m0]
    have e6 : (onEvent (onEvent (onEvent (onEvent (onEvent (onEvent
        { c with maxResolveAttempts := 5 })))))).resolveAttempts = 5 := by
      rw [a6, e5]
      simp [onEvent_maxResolveAttempts, m0]
    have f6 : (onEvent (onEvent (onEvent (onEvent (onEvent (onEvent
        { c with maxResolveAttempts := 5 })))))).timerArmed = false := by
      rw [t6, e5]
      simp [onEvent_maxResolveAttempts, m0]
    exact ⟨e6, f6, u6.2.2⟩
  · intro c hu h0
    have m0 : ({ c with maxResolveAttempts := 5 } : CClient).maxResolveAttempts = 5 := rfl
    have hc0 : V6Unresolvable { c with maxResolveAttempts := 5 } :=
      ⟨hu.1, hu.2.1, hu.2.2.1, hu.2.2.2⟩
    obtain ⟨u1, a1, t1⟩ := onEvent_v6u hc0
    obtain ⟨u2, a2, t2⟩ := onEvent_v6u u1
    obtain ⟨u3, a3, t3⟩ := onEvent_v6u u2
    obtain ⟨u4, a4, t4⟩ := onEvent_v6u u3
    obtain ⟨u5, a5, t5⟩ := onEvent_v6u u4
    obtain ⟨u6, a6, t6⟩ := onEvent_v6u u5
    have e1 : (onEvent { c with maxResolveAttempts := 5 }).resolveAttempts = 1 := by
      rw [a1]
      show (if c.resolveAttempts < 5 then c.resolveAttempts + 1
        else c.resolveAttempts) = 1
      rw [h0]
      decide
    have e2 : (onEvent (onEvent { c with maxResolveAttempts := 5 })).resolveAttempts = 2 := by
      rw [a2, e1]
      simp [onEvent_maxResolveAttempts, m0]
    have e3 : (onEvent (onEvent (onEvent
        { c with maxResolveAttempts := 5 }))).resolveAttempts = 3 := by
      rw [a3, e2]
      simp [onEvent_maxResolveAttempts, m0]
    have e4 : (onEvent (onEvent (onEvent (onEvent
        { c with maxResolveAttempts := 5 })))).resolveAttempts = 4 := by
      rw [a4, e3]
      simp [onEvent_maxResolveAttempts, m0]
    have e5 : (onEvent (onEvent (onEvent (onEvent (onEvent
        { c with maxResolveAttempts := 5 }))))).resolveAttempts = 5 := by
      rw [a5, e4]
      simp [onEvent_maxResolveAttempts, m0]
    have e6 : (onEvent (onEvent (onEvent (onEvent (onEvent (onEvent
        { c with maxResolveAttempts := 5 })))))).resolveAttempts = 5 := by
      rw [a6, e5]
      simp [onEvent_maxResolveAttempts, m0]
    have f6 : (onEvent (onEvent (onEvent (onEvent (onEvent (onEvent
        { c with maxResolveAttempts := 5 })))))).timerArmed = false := by
      rw [t6, e5]
      simp [onEvent_maxResolveAttempts, m0]
    exact ⟨e6, f6, u6.2.2.2⟩

/-- A freshly created client with no gateway source for either family. -/
def c5Client : CClient := newClient [0, 0, 0, 0, 0, 1] [0, 0, 0, 0] ipv6Zero [0, 0, 0, 0]

/-- Witness for C5: the bound and the exhaustion trace at a concrete fresh
client with no gateway sources. -/
theorem c5_retry_bound_and_exhaustion_witness :
    (onEvent^[3] (attemptResolve c5Client)).resolveAttempts ≤ 5 ∧
    ((onEvent^[5] (attemptResolve c5Client)).resolveAttempts = 5 ∧
      (onEvent^[5] (attemptResolve c5Client)).timerArmed = false ∧
      (onEvent^[5] (attemptResolve c5Client)).bitMask &&& RESOLVED_IPV4_DG_MAC = 0) := by
  refine ⟨c5_retry_bound_and_exhaustion.1 c5Client 3 (by decide), ?_⟩
  exact c5_retry_bound_and_exhaustion.2.1 c5Client
    ⟨rfl, fun dg h => by simp [c5Client, newClient] at h, rfl⟩ rfl

/-- A nonzero IPv6 address used as a static default gateway in examples. -/
def addrA : Ipv6Key :=
  [0x20, 0x01, 0, 0, 0, 0, 0, 0, 0, 0, 0, 0, 0, 0, 0, 1]

/-- A second, different nonzero IPv6 address (a router-assigned address). -/
def addrB : Ipv6Key :=
  [0x20, 0x01, 0, 0, 0, 0, 0, 0, 0, 0, 0, 0, 0, 0, 0, 2]

/-- A client that has both a non-zero static IPv6 gateway and a router
snapshot whose advertised address happens to equal the static one. -/
def c10AgreeClient : CClient :=
  { newClient [2, 0, 0, 0, 0, 7] [10, 0, 0, 1] ipv6Zero [0, 0, 0, 0] with
    dgIpv6 := addrA
    ipv6ForceDGW := true
    ipv6ForcedgMac := [0xde, 0xad, 0xbe, 0xef, 0, 1]
    ipv6Router := some
      { mtu := 1500
        dgMac := [0xca, 0xfe, 0, 0, 0, 2]
        prefixIpv6 := ipv6Zero
        prefixLen := 64
        ipv6 := addrA } }

/-- Counterexample for C10: a client that has both a router snapshot and a
non-zero static gateway, yet the two queries return the same address — so
"the two queries disagree for clients that have both" fails as stated. -/
theorem c10_queries_agree_counterexample :
    resolveDGIPv6 c10AgreeClient = (addrA, true) ∧
    resolveDGv6 c10AgreeClient = (addrA, [0xde, 0xad, 0xbe, 0xef, 0, 1], true) ∧
    (resolveDGIPv6 c10AgreeClient).1 = (resolveDGv6 c10AgreeClient).1 := by
  refine ⟨?_, ?_, ?_⟩ <;> decide

/-- Claim C10 (amended): `ResolveDGIPv6` gives the router snapshot priority —
whenever a snapshot is present it returns the snapshot's advertised address,
even when a non-zero static gateway is configured — whereas `ResolveDGv6`
prefers the static gateway address when it is non-zero (succeeding when its
MAC is forced or resolved); consequently the two queries disagree for
clients that have both, provided the router-advertised address differs from
the configured static gateway address. -/
theorem c10_dg_query_divergence (c : CClient) (nd : CClientIpv6Nd) :
    (c.ipv6Router = some nd → resolveDGIPv6 c = (nd.ipv6, true)) ∧
    (ipv6IsZero c.dgIpv6 = false → c.ipv6ForceDGW = true →
      resolveDGv6 c = (c.dgIpv6, c.ipv6ForcedgMac, true)) ∧
    (ipv6IsZero c.dgIpv6 = false → c.ipv6ForceDGW = false →
      ∀ dg, c.ipv6DGW = some dg → dg.ipdgResolved = true →
      resolveDGv6 c = (c.dgIpv6, dg.ipdgMac, true)) ∧
    (c.ipv6Router = some nd → ipv6IsZero c.dgIpv6 = false →
      c.ipv6ForceDGW = true → ¬ nd.ipv6 = c.dgIpv6 →
      ¬ (resolveDGIPv6 c).1 = (resolveDGv6 c).1) := by
  refine ⟨?_, ?_, ?_, ?_⟩
  · intro h
    simp [resolveDGIPv6, h]
  · intro hz hf
    simp [resolveDGv6, hz, hf]
  · intro hz hf dg hdg hres
    simp [resolveDGv6, hz, hf, hdg, hres]
  · intro hr hz hf hne
    simp [resolveDGIPv6, resolveDGv6, hr, hz, hf]
    exact hne

/-- The agreeing client, but with the router advertising a different address
than the static gateway — the generic situation the queries disagree in. -/
def c10DisagreeClient : CClient :=
  { c10AgreeClient with
    ipv6Router := some
      { mtu := 1500
        dgMac := [0xca, 0xfe, 0, 0, 0, 2]
        prefixIpv6 := ipv6Zero
        prefixLen := 64
        ipv6 := addrB } }

/-- Witness for C10: the divergence theorem applied at a concrete client
with both sources and differing addresses. -/
theorem c10_dg_query_divergence_witness :
    resolveDGIPv6 c10DisagreeClient =
      ((c10DisagreeClient.ipv6Router.getD
        { mtu := 0, dgMac := [], prefixIpv6 := [], prefixLen := 0, ipv6 := [] }).ipv6,
        true) ∧
    ¬ (resolveDGIPv6 c10DisagreeClient).1 = (resolveDGv6 c10DisagreeClient).1 := by
  constructor
  · exact (c10_dg_query_divergence c10DisagreeClient
      { mtu := 1500
        dgMac := [0xca, 0xfe, 0, 0, 0, 2]
        prefixIpv6 := ipv6Zero
        prefixLen := 64
        ipv6 := addrB }).1 rfl
  · exact (c10_dg_query_divergence c10DisagreeClient
      { mtu := 1500
        dgMac := [0xca, 0xfe, 0, 0, 0, 2]
        prefixIpv6 := ipv6Zero
        prefixLen := 64
        ipv6 := addrB }).2.2.2 rfl (by decide) rfl (by decide)

/-- Go's `CTunnelData` — virtual port plus the fixed 2-slot stacked-VLAN array
(`Vlans [2]uint32`); each slot stores the full 32-bit tag field as read from
the wire (TPID in the high 16 bits, priority+id in the low 16). -/
structure CTunnelData where
  vport : Nat
  vlan0 : Nat
  vlan1 : Nat
deriving Repr, DecidableEq

/-- Modelled from the spec: `CTunnelKey` (declared outside the given source
files) is a compact fixed-size identifier derived from the ordered tag
sequence and the virtual port; `Set`/`Get` convert losslessly between it and
`CTunnelData`, modelled here as a single-field wrapper. -/
structure CTunnelKey where
  data : CTunnelData
deriving Repr, DecidableEq

/-- Modelled from the spec: `CTunnelKey.Set` stores a `CTunnelData` into the
key. -/
def CTunnelKey.set (d : CTunnelData) : CTunnelKey := ⟨d⟩

/-- Modelled from the spec: `CTunnelKey.Get` retrieves the stored
`CTunnelData`. -/
def CTunnelKey.get (k : CTunnelKey) : CTunnelData := k.data

/-- The `EthernetTypeDot1Q` constant 0x8100. -/
def dot1Q : Nat := 0x8100

/-- The tag-scanning loop of `getTunnelKeyFromSlice`: while the pending
EtherType is 802.1Q, read the 4-byte tag field at `offset - 2` (Go panics —
`none` — when the slice read, the write past the 2-slot `Vlans` array, or
the next-EtherType read is out of bounds), store it in the next `Vlans`
slot, and advance by 4. -/
def vlanScan (p : List Nat) (nextHdr offset vlanIndex v0 v1 : Nat) :
    Option (Nat × Nat) :=
  if nextHdr = dot1Q then
    if offset + 2 ≤ p.length then
      let val := u32at p (offset - 2)
      if vlanIndex < 2 then
        if h : offset + 4 ≤ p.length then
          vlanScan p (u16at p (offset + 2)) (offset + 4) (vlanIndex + 1)
            (if vlanIndex = 0 then val else v0)
            (if vlanIndex = 1 then val else v1)
        else none
      else none
    else none
  else some (v0, v1)
termination_by p.length - offset
decreasing_by omega

/-- Go's `getTunnelKeyFromSlice` — derive the tunnel key of a frame from its
stacked VLAN tags and the supplied virtual port (Go panics become `none`:
a frame shorter than the 14-byte Ethernet header, a truncated tag, or more
stacked tags than the 2-slot array). -/
def getTunnelKeyFromSlice (p : List Nat) (port : Nat) : Option CTunnelKey :=
  if 14 ≤ p.length then
    match vlanScan p (u16at p 12) 14 0 0 0 with
    | some (v0, v1) => some (CTunnelKey.set ⟨port, v0, v1⟩)
    | none => none
  else none

/-- The tag-skipping loop of `setTunnelKeyToSlice`: advance past the
original frame's stacked tags, returning the offset just after the last
EtherType examined. -/
def encScan (p : List Nat) (nextHdr offset : Nat) : Option Nat :=
  if nextHdr = dot1Q then
    if h : offset + 4 ≤ p.length then
      encScan p (u16at p (offset + 2)) (offset + 4)
    else none
  else some offset
termination_by p.length - offset
decreasing_by omega

/-- Go's `setTunnelKeyToSlice` — rewrite a frame's tag region from a tunnel key:
keep the 12 address bytes, emit each non-zero `Vlans` slot as 4 big-endian
bytes, and append the original frame from 2 bytes before the post-tag
offset (the final EtherType) onward. -/
def setTunnelKeyToSlice (ctk : CTunnelKey) (p : List Nat) : Option (List Nat) :=
  if 14 ≤ p.length then
    let d := CTunnelKey.get ctk
    match encScan p (u16at p 12) 14 with
    | some offset =>
        let afterVlan := p.drop (offset - 2)
        let vlanBytes :=
          (if d.vlan0 ≠ 0 then u32bytes d.vlan0 else []) ++
          (if d.vlan1 ≠ 0 then u32bytes d.vlan1 else [])
        some (p.take 12 ++ vlanBytes ++ afterVlan)
    | none => none
  else none

/-- A 26-byte frame whose EtherType chain stacks three 802.1Q tags. -/
def threeTagFrame : List Nat :=
  [0, 0, 0, 0, 0, 0, 0, 0, 0, 0, 0, 0,
   0x81, 0x00, 0, 1, 0x81, 0x00, 0, 2, 0x81, 0x00, 0, 3, 0x08, 0x00]

/-- Claim C3 (the code violates it): decoding a frame with three stacked
802.1Q tags runs the scan loop past the 2-slot `Vlans` array — in Go an
index-out-of-range panic, in this embedding `none` — instead of rejecting
or truncating at capacity. -/
theorem c3_three_tags_overrun :
    getTunnelKeyFromSlice threeTagFrame 7 = none := by
  simp [getTunnelKeyFromSlice, threeTagFrame, vlanScan, u16at, u32at, dot1Q]

/-- An untagged 16-byte base frame (12 address bytes, EtherType 0x0800, two
payload bytes) that tags are encoded into. -/
def baseFrame : List Nat :=
  [0, 0, 0, 0, 0, 0, 0, 0, 0, 0, 0, 0, 0x08, 0x00, 0xde, 0xad]

/-- Claim C7: tunnel-key codec round-trip.  For every ordered VLAN tag
sequence of length 0, 1 or 2 (tag fields carry the 802.1Q TPID in their high
16 bits, and arbitrary priority+id bytes `a b` / `c d`) and every virtual
port, encoding the tags into a frame with `setTunnelKeyToSlice` and decoding
the resulting frame with `getTunnelKeyFromSlice` yields the same ordered tag
sequence and the same vport (the vport travels in the per-packet header, not
in the tag bytes, and is handed to the decoder unchanged). -/
theorem c7_tunnel_roundtrip (vp a b c d : Nat) (ha : a < 256) (hb : b < 256)
    (hc : c < 256) (hd : d < 256) :
    ((setTunnelKeyToSlice (CTunnelKey.set ⟨vp, 0, 0⟩) baseFrame).bind
        (fun f => getTunnelKeyFromSlice f vp) =
      some (CTunnelKey.set ⟨vp, 0, 0⟩)) ∧
    ((setTunnelKeyToSlice
          (CTunnelKey.set ⟨vp, dot1Q * 65536 + (a * 256 + b), 0⟩) baseFrame).bind
        (fun f => getTunnelKeyFromSlice f vp) =
      some (CTunnelKey.set ⟨vp, dot1Q * 65536 + (a * 256 + b), 0⟩)) ∧
    ((setTunnelKeyToSlice
          (CTunnelKey.set ⟨vp, dot1Q * 65536 + (a * 256 + b),
            dot1Q * 65536 + (c * 256 + d)⟩) baseFrame).bind
        (fun f => getTunnelKeyFromSlice f vp) =
      some (CTunnelKey.set ⟨vp, dot1Q * 65536 + (a * 256 + b),
        dot1Q * 65536 + (c * 256 + d)⟩)) := by
  have hbytes1 : u32bytes (dot1Q * 65536 + (a * 256 + b)) = [0x81, 0x00, a, b] := by
    simp only [u32bytes, dot1Q, List.cons.injEq, and_true]
    refine ⟨by omega, by omega, by omega, by omega⟩
  have hbytes2 : u32bytes (dot1Q * 65536 + (c * 256 + d)) = [0x81, 0x00, c, d] := by
    simp only [u32bytes, dot1Q, List.cons.injEq, and_true]
    refine ⟨by omega, by omega, by omega, by omega⟩
  have ht1 : dot1Q * 65536 + (a * 256 + b) ≠ 0 := by simp [dot1Q]
  have ht2 : dot1Q * 65536 + (c * 256 + d) ≠ 0 := by simp [dot1Q]
  have hscan : encScan baseFrame (u16at baseFrame 12) 14 = some 14 := by
    rw [encScan]
    norm_num [u16at, baseFrame, dot1Q]
  refine ⟨?_, ?_, ?_⟩
  · have henc : setTunnelKeyToSlice (CTunnelKey.set ⟨vp, 0, 0⟩) baseFrame =
        some baseFrame := by
      rw [setTunnelKeyToSlice]
      simp only [hscan, CTunnelKey.get, CTunnelKey.set]
      rw [if_pos (by norm_num [baseFrame])]
      simp [baseFrame]
    rw [henc]
    show getTunnelKeyFromSlice baseFrame vp = _
    rw [getTunnelKeyFromSlice]
    rw [if_pos (by norm_num [baseFrame])]
    have hv : vlanScan baseFrame (u16at baseFrame 12) 14 0 0 0 = some (0, 0) := by
      rw [vlanScan]
      norm_num [u16at, baseFrame, dot1Q]
    rw [hv]
  · have henc : setTunnelKeyToSlice
        (CTunnelKey.set ⟨vp, dot1Q * 65536 + (a * 256 + b), 0⟩) baseFrame =
        some [0, 0, 0, 0, 0, 0, 0, 0, 0, 0, 0, 0,
          0x81, 0x00, a, b, 0x08, 0x00, 0xde, 0xad] := by
      rw [setTunnelKeyToSlice]
      simp only [hscan, CTunnelKey.get, CTunnelKey.set]
      rw [if_pos (by norm_num [baseFrame])]
      simp [ht1, hbytes1, baseFrame]
    rw [henc]
    show getTunnelKeyFromSlice _ vp = _
    rw [getTunnelKeyFromSlice]
    rw [if_pos (by norm_num)]
    have hv : vlanScan
        [0, 0, 0, 0, 0, 0, 0, 0, 0, 0, 0, 0, 0x81, 0x00, a, b, 0x08, 0x00, 0xde, 0xad]
        (u16at [0, 0, 0, 0, 0, 0, 0, 0, 0, 0, 0, 0,
          0x81, 0x00, a, b, 0x08, 0x00, 0xde, 0xad] 12) 14 0 0 0 =
        some (dot1Q * 65536 + (a * 256 + b), 0) := by
      rw [vlanScan]
      norm_num [u16at, dot1Q]
      rw [vlanScan]
      norm_num [u16at, u32at, dot1Q]
    rw [hv]
  · have henc : setTunnelKeyToSlice
        (CTunnelKey.set ⟨vp, dot1Q * 65536 + (a * 256 + b),
          dot1Q * 65536 + (c * 256 + d)⟩) baseFrame =
        some [0, 0, 0, 0, 0, 0, 0, 0, 0, 0, 0, 0,
          0x81, 0x00, a, b, 0x81, 0x00, c, d, 0x08, 0x00, 0xde, 0xad] := by
      rw [setTunnelKeyToSlice]
      simp only [hscan, CTunnelKey.get, CTunnelKey.set]
      rw [if_pos (by norm_num [baseFrame])]
      simp [ht1, ht2, hbytes1, hbytes2, baseFrame]
    rw [henc]
    show getTunnelKeyFromSlice _ vp = _
    rw [getTunnelKeyFromSlice]
    rw [if_pos (by norm_num)]
    have hv : vlanScan
        [0, 0, 0, 0, 0, 0, 0, 0, 0, 0, 0, 0,
          0x81, 0x00, a, b, 0x81, 0x00, c, d, 0x08, 0x00, 0xde, 0xad]
        (u16at [0, 0, 0, 0, 0, 0, 0, 0, 0, 0, 0, 0,
          0x81, 0x00, a, b, 0x81, 0x00, c, d, 0x08, 0x00, 0xde, 0xad] 12) 14 0 0 0 =
        some (dot1Q * 65536 + (a * 256 + b), dot1Q * 65536 + (c * 256 + d)) := by
      rw [vlanScan]
      norm_num [u16at, u32at, dot1Q]
      rw [vlanScan]
      norm_num [u16at, u32at, dot1Q]
      rw [vlanScan]
      norm_num [u16at, u32at, dot1Q]
    rw [hv]

/-- Witness for C7: the round trip evaluated on a concrete two-tag stack
(priority+id bytes 0x20 0x64 and 0x40 0xc8) at vport 9. -/
theorem c7_tunnel_roundtrip_witness :
    (setTunnelKeyToSlice
        (CTunnelKey.set ⟨9, dot1Q * 65536 + (0x20 * 256 + 0x64),
          dot1Q * 65536 + (0x40 * 256 + 0xc8)⟩) baseFrame).bind
      (fun f => getTunnelKeyFromSlice f 9) =
    some (CTunnelKey.set ⟨9, dot1Q * 65536 + (0x20 * 256 + 0x64),
      dot1Q * 65536 + (0x40 * 256 + 0xc8)⟩) :=
  (c7_tunnel_roundtrip 9 0x20 0x64 0x40 0xc8 (by decide) (by decide)
    (by decide) (by decide)).2.2

/-- Go's `Mbuf` — a packet buffer.  Modelled from the spec (the buffer pool is an
external collaborator): a chain of byte segments plus the virtual port;
`Alloc` + `Append` produce a single-segment (contiguous) buffer,
`GetContiguous` joins the chain, `PktLen` is the total byte count. -/
structure Mbuf where
  segs : List (List Nat)
  vport : Nat
deriving Repr, DecidableEq

/-- Go's `Mbuf.IsContiguous` — the buffer is one single segment. -/
def Mbuf.isContiguous (m : Mbuf) : Bool := m.segs.length == 1

/-- Go's `Mbuf.GetData` — the raw data view (the joined bytes; the transport only
calls it on contiguous buffers). -/
def Mbuf.getData (m : Mbuf) : List Nat := m.segs.flatten

/-- Go's `Mbuf.GetContiguous` — copy into one contiguous segment. -/
def Mbuf.getContiguous (m : Mbuf) : Mbuf := ⟨[m.segs.flatten], m.vport⟩

/-- Go's `Mbuf.PktLen` — total number of payload bytes. -/
def Mbuf.pktLen (m : Mbuf) : Nat := (m.segs.map List.length).sum

/-- Go's `MPool.Alloc` followed by `SetVPort`/`Append` — a fresh single-segment
buffer holding the given bytes. -/
def Mbuf.alloc (vport : Nat) (data : List Nat) : Mbuf := ⟨[data], vport⟩

/-- Go's `VethStats` — the transport counters the claims observe.  The Go
counters are `uint64`; wraparound at `2 ^ 64` cannot occur on the increments
proved about here, so they are unbounded naturals. -/
structure VethStats where
  txPkts : Nat
  txBytes : Nat
  txBatch : Nat
  txDropNotResolve : Nat
  rxPkts : Nat
  rxBytes : Nat
  rxBatch : Nat
  rxParseErr : Nat
  rxZmqErr : Nat
deriving Repr, DecidableEq

/-- The all-zero counter block. -/
def VethStats.zero : VethStats := ⟨0, 0, 0, 0, 0, 0, 0, 0, 0⟩

/-- Go's `VethIFZmq` — transport state: the pending tx batch (`vec`,
`txVecSize`), counters, the sequence of wire messages handed to the tx
socket (`sent`, in order), the packets handed to the rx packet handler
(`delivered`, in order; in proxy mode the handler is the proxy callback,
otherwise the engine's — both are external, so one list records delivery),
and the environment/config inputs of the rx path: the `USE_VYOS`
environment switch, `ToVyosPort`, and — modelled from the spec, since
`GetCTunnelKeyForVyos` and `VyosToTrexCTunnelKeyTable` are defined outside
the given source files — the key-translation function and the reverse
translation table of the proxy rewrite. -/
structure VethIFZmq where
  vec : List Mbuf
  txVecSize : Nat
  stats : VethStats
  sent : List (List Nat)
  delivered : List Mbuf
  proxyMode : Bool
  useVyos : Bool
  toVyosPort : Nat
  vyosKeyFor : CTunnelKey → CTunnelKey
  vyosToTrexTable : CTunnelKey → Option CTunnelKey

/-- Constant `ZMQ_TX_PKT_BURST_SIZE`. -/
def ZMQ_TX_PKT_BURST_SIZE : Nat := 64

/-- Constant `ZMQ_TX_MAX_BUFFER_SIZE`. -/
def ZMQ_TX_MAX_BUFFER_SIZE : Nat := 32 * 1024

/-- The per-packet wire header of `FlushTx`:
`0xAA <<< 24 + (vport &&& 0xff) <<< 16 + pktLen &&& 0xffff`, serialized
big-endian. -/
def pktHeaderBytes (m : Mbuf) : List Nat :=
  u32bytes (0xAA * 16777216 + m.vport % 256 * 65536 + m.pktLen % 65536)

/-- The serialization loop of `FlushTx`: append each pending buffer's header
and raw data; a non-contiguous buffer is a Go `panic` (`none`). -/
def flushLoop : List Mbuf → List Nat → Option (List Nat)
  | [], buf => some buf
  | m :: rest, buf =>
      if m.isContiguous then
        flushLoop rest (buf ++ pktHeaderBytes m ++ m.getData)
      else none

/-- Go's `FlushTx` — nothing to do on an empty batch; otherwise serialize the
batch header `(0xBEEF <<< 16) + count` followed by every pending frame,
transmit the buffer as one message, and reset the batch. -/
def flushTx (s : VethIFZmq) : Option VethIFZmq :=
  if s.vec.isEmpty then some s
  else
    match flushLoop s.vec (u32bytes (0xBEEF * 65536 + s.vec.length)) with
    | some buf =>
        some { s with
          vec := []
          txVecSize := 0
          sent := s.sent ++ [buf]
          stats := { s.stats with txBatch := s.stats.txBatch + 1 } }
    | none => none

/-- Go's `Send` — count the frame, flush first if the buffered payload would
reach the 32 KiB ceiling, append the frame (copied to contiguous form if
needed), and flush when the batch reaches 64 frames. -/
def send (s : VethIFZmq) (m : Mbuf) : Option VethIFZmq :=
  let pktlen := m.pktLen
  let s1 := { s with stats := { s.stats with
    txPkts := s.stats.txPkts + 1
    txBytes := s.stats.txBytes + pktlen } }
  let step1 := if s1.txVecSize + pktlen ≥ ZMQ_TX_MAX_BUFFER_SIZE then flushTx s1
    else some s1
  match step1 with
  | none => none
  | some s2 =>
      let m1 := if m.isContiguous then m else m.getContiguous
      let s3 := { s2 with vec := s2.vec ++ [m1], txVecSize := s2.txVecSize + pktlen }
      if s3.vec.length = ZMQ_TX_PKT_BURST_SIZE then flushTx s3 else some s3

/-- Go's `SendBuffer` — allocate a buffer for the bytes with the namespace's
vport (passed explicitly here; the Go code reads it from the client's
namespace key); for a unicast send, resolve the gateway MAC first and drop
the frame (counting it) when unresolved, else overwrite the destination and
source MAC bytes; then `Send`.  MAC keys are 6-byte arrays, and the
destination/source rewrite Go-panics (`none`) on a frame shorter than 12
bytes. -/
def sendBuffer (s : VethIFZmq) (unicast : Bool) (c : CClient) (vport : Nat)
    (b : List Nat) (ipv6 : Bool) : Option VethIFZmq :=
  let m := Mbuf.alloc vport b
  if unicast then
    let r := if ipv6 then resolveIPv6DGMac c else resolveIPv4DGMac c
    if r.2 = false then
      some { s with stats := { s.stats with
        txDropNotResolve := s.stats.txDropNotResolve + 1 } }
    else if b.length < 12 then none
    else send s (Mbuf.alloc vport (r.1 ++ c.mac ++ b.drop 12))
  else send s m

/-- Go's `OnRx` — count the packet and hand it to the packet handler (the proxy
callback in proxy mode, the engine's handler otherwise; both external). -/
def onRx (s : VethIFZmq) (m : Mbuf) : VethIFZmq :=
  { s with
    stats := { s.stats with
      rxPkts := s.stats.rxPkts + 1
      rxBytes := s.stats.rxBytes + m.pktLen }
    delivered := s.delivered ++ [m] }

/-- Increment the parse-error counter (`o.stats.RxParseErr++`). -/
def bumpParseErr (s : VethIFZmq) : VethIFZmq :=
  { s with stats := { s.stats with rxParseErr := s.stats.rxParseErr + 1 } }

/-- The empty `CClient{Ns: &ns}` skeleton the proxy rewrite path constructs
(every field is Go's zero value). -/
def emptyClient : CClient :=
  { mac := macZero
    ipv4 := [0, 0, 0, 0]
    dgIpv4 := [0, 0, 0, 0]
    mtu := 0
    dgw := none
    ipv6Router := none
    ipv6DGW := none
    ipv6 := ipv6Zero
    dgIpv6 := ipv6Zero
    dhcpv6 := ipv6Zero
    ipv6ForceDGW := false
    ipv6ForcedgMac := macZero
    forceDGW := false
    ipv4ForcedgMac := macZero
    bitMask := 0
    resolveAttempts := 0
    maxResolveAttempts := 0
    timerArmed := false
    notifications := [] }

/-- The proxy rewrite of one validated inbound packet when `USE_VYOS` is
set: derive the packet's tunnel key, translate it (directly towards the
vyos domain, or through the reverse table on the way back — a table miss
silently skips the packet), rewrite the tag region and re-send the frame
non-unicast through the transport; decode/encode Go panics are `none`. -/
def vyosRewrite (s : VethIFZmq) (slice : List Nat) (vport : Nat) :
    Option VethIFZmq :=
  if vport ≠ s.toVyosPort then
    match getTunnelKeyFromSlice slice vport with
    | none => none
    | some ctk =>
        let vyosKey := s.vyosKeyFor ctk
        match setTunnelKeyToSlice vyosKey slice with
        | none => none
        | some newSlice =>
            sendBuffer s false emptyClient (CTunnelKey.get vyosKey).vport
              newSlice false
  else
    match getTunnelKeyFromSlice slice vport with
    | none => none
    | some ctk =>
        match s.vyosToTrexTable ctk with
        | none => some s
        | some trexKey =>
            match setTunnelKeyToSlice trexKey slice with
            | none => none
            | some newSlice =>
                sendBuffer s false emptyClient (CTunnelKey.get trexKey).vport
                  newSlice false

/-- The per-packet loop of `OnRxStream`, one recursive step per declared
packet.  The running offset `of` is a Go `uint16` and wraps at `2 ^ 16`
(made explicit with `% 65536`); a Go slice whose bounds invert after the
wrap panics (`none`).  On any validation failure the parse-error counter is
bumped and the rest of the message is abandoned. -/
def rxLoop (stream : List Nat) : Nat → VethIFZmq → Nat → Option VethIFZmq
  | 0, s, _ => some s
  | remaining + 1, s, of =>
      let blen := stream.length
      let of4 := (of + 4) % 65536
      if blen < of4 then some (bumpParseErr s)
      else if of4 < of then none
      else
        let header := u32at stream of
        if header &&& 0xff000000 ≠ 0xAA000000 then some (bumpParseErr s)
        else
          let vport := (header &&& 0x00ff0000) / 65536
          let pktLen := header &&& 0x0000ffff
          let ofp := (of + 4 + pktLen) % 65536
          if blen < ofp then some (bumpParseErr s)
          else if ofp < of4 then none
          else
            let slice := (stream.drop of4).take pktLen
            let m := Mbuf.alloc vport slice
            let s1 := onRx s m
            if s1.useVyos then
              match vyosRewrite s1 slice vport with
              | none => none
              | some s2 => rxLoop stream remaining s2 ofp
            else rxLoop stream remaining s1 ofp

/-- Go's `OnRxStream` — count the batch, validate the 4-byte message header
(length and 0xBEEF magic, bumping the parse-error counter on failure), then
run the per-packet loop for the declared packet count. -/
def onRxStream (s : VethIFZmq) (stream : List Nat) : Option VethIFZmq :=
  let s0 := { s with stats := { s.stats with rxBatch := s.stats.rxBatch + 1 } }
  if stream.length < 4 then some (bumpParseErr s0)
  else
    let header := u32at stream 0
    if (header &&& 0xffff0000) / 65536 ≠ 0xBEEF then some (bumpParseErr s0)
    else rxLoop stream (header &&& 0x0000ffff) s0 4

/-- A transport state in the non-proxy configuration with `USE_VYOS` unset,
zeroed counters and empty queues. -/
def veth0 : VethIFZmq :=
  { vec := []
    txVecSize := 0
    stats := VethStats.zero
    sent := []
    delivered := []
    proxyMode := false
    useVyos := false
    toVyosPort := 0
    vyosKeyFor := fun k => k
    vyosToTrexTable := fun _ => none }

/-- Go's `OnRx` appends exactly one packet to the delivery record. -/
theorem onRx_delivered_length (s : VethIFZmq) (m : Mbuf) :
    (onRx s m).delivered.length = s.delivered.length + 1 := by
  simp [onRx]

/-- The rx loop (with the rewrite switch off) bumps the parse-error counter
at most once per message and delivers at most one packet per declared
entry. -/
theorem rxLoop_err_once (stream : List Nat) :
    ∀ (r : Nat) (s : VethIFZmq) (of : Nat) (s' : VethIFZmq),
      rxLoop stream r s of = some s' → s.useVyos = false →
      (s'.stats.rxParseErr = s.stats.rxParseErr ∨
        s'.stats.rxParseErr = s.stats.rxParseErr + 1) ∧
      s'.delivered.length ≤ s.delivered.length + r := by
  intro r
  induction r with
  | zero =>
      intro s of s' h hv
      simp only [rxLoop, Option.some.injEq] at h
      subst h
      exact ⟨Or.inl rfl, Nat.le_refl _⟩
  | succ k ih =>
      intro s of s' h hv
      simp only [rxLoop] at h
      split at h
      · obtain rfl : bumpParseErr s = s' := by exact Option.some.inj h
        exact ⟨Or.inr rfl, by simp [bumpParseErr]⟩
      · split at h
        · cases h
        · split at h
          · obtain rfl : bumpParseErr s = s' := by exact Option.some.inj h
            exact ⟨Or.inr rfl, by simp [bumpParseErr]⟩
          · split at h
            · obtain rfl : bumpParseErr s = s' := by exact Option.some.inj h
              exact ⟨Or.inr rfl, by simp [bumpParseErr]⟩
            · split at h
              · cases h
              · split at h
                · next huse =>
                    have : s.useVyos = true := huse
                    rw [hv] at this
                    cases this
                · next huse =>
                    have hres := ih _ _ _ h hv
                    have h2 := hres.2
                    rw [onRx_delivered_length] at h2
                    exact ⟨hres.1, by omega⟩

/-- The short-message (8 bytes) wire message that declares two packets but
carries only one: header `0xBEEF0002`, then one valid zero-length packet
`0xAA 0x00 0x0000` and nothing for the second entry. -/
def c2Stream : List Nat := [0xBE, 0xEF, 0x00, 0x02, 0xAA, 0x00, 0x00, 0x00]

/-- Counterexample for C2: on `c2Stream` a validation step fails (the second
declared entry has no header bytes left), the parse-error counter is
incremented — and yet one packet of the message has already been delivered
to the packet handler, contradicting "no partial delivery". -/
theorem c2_partial_delivery_counterexample :
    (onRxStream veth0 c2Stream).map
      (fun s => (s.delivered.length, s.stats.rxParseErr)) = some (1, 1) := by
  rfl

/-- A per-packet header that does not fit in the remaining bytes aborts the
loop immediately at any position: regardless of how many entries remain, the
result is exactly the current state with the parse-error counter bumped —
exactly one increment and nothing further delivered. -/
theorem rxLoop_fail_header_short (stream : List Nat) (r : Nat) (s : VethIFZmq)
    (of : Nat) (h : stream.length < (of + 4) % 65536) :
    rxLoop stream (r + 1) s of = some (bumpParseErr s) := by
  simp only [rxLoop]
  rw [if_pos h]

/-- A bad per-packet magic byte aborts the loop immediately at any position:
the result is exactly the current state with the parse-error counter bumped. -/
theorem rxLoop_fail_bad_magic (stream : List Nat) (r : Nat) (s : VethIFZmq)
    (of : Nat) (h1 : ¬ stream.length < (of + 4) % 65536)
    (h2 : ¬ (of + 4) % 65536 < of)
    (h3 : u32at stream of &&& 0xff000000 ≠ 0xAA000000) :
    rxLoop stream (r + 1) s of = some (bumpParseErr s) := by
  simp only [rxLoop]
  rw [if_neg h1, if_neg h2, if_pos h3]

/-- A declared packet length exceeding the remaining bytes aborts the loop
immediately at any position: the result is exactly the current state with
the parse-error counter bumped. -/
theorem rxLoop_fail_pkt_too_long (stream : List Nat) (r : Nat) (s : VethIFZmq)
    (of : Nat) (h1 : ¬ stream.length < (of + 4) % 65536)
    (h2 : ¬ (of + 4) % 65536 < of)
    (h3 : u32at stream of &&& 0xff000000 = 0xAA000000)
    (h4 : stream.length < (of + 4 + (u32at stream of &&& 0x0000ffff)) % 65536) :
    rxLoop stream (r + 1) s of = some (bumpParseErr s) := by
  simp only [rxLoop]
  rw [if_neg h1, if_neg h2, if_neg (fun hn => hn h3), if_pos h4]

/-- Exactly-once characterization of the rx loop (rewrite switch off): the
loop either completes with the parse-error counter untouched, or its result
is literally `bumpParseErr` of a state whose counter still equals the entry
value — one increment, applied at the failure that ended the loop. -/
theorem rxLoop_parse_outcome (stream : List Nat) :
    ∀ (r : Nat) (s : VethIFZmq) (of : Nat) (s' : VethIFZmq),
      rxLoop stream r s of = some s' → s.useVyos = false →
      s'.stats.rxParseErr = s.stats.rxParseErr ∨
      ∃ t, s' = bumpParseErr t ∧ t.stats.rxParseErr = s.stats.rxParseErr := by
  intro r
  induction r with
  | zero =>
      intro s of s' h hv
      simp only [rxLoop, Option.some.injEq] at h
      subst h
      exact Or.inl rfl
  | succ k ih =>
      intro s of s' h hv
      simp only [rxLoop] at h
      split at h
      · exact Or.inr ⟨s, (Option.some.inj h).symm, rfl⟩
      · split at h
        · cases h
        · split at h
          · exact Or.inr ⟨s, (Option.some.inj h).symm, rfl⟩
          · split at h
            · exact Or.inr ⟨s, (Option.some.inj h).symm, rfl⟩
            · split at h
              · cases h
              · split at h
                · next huse =>
                    have : s.useVyos = true := huse
                    rw [hv] at this
                    cases this
                · next huse =>
                    rcases ih _ _ _ h hv with hl | ⟨t, ht, htc⟩
                    · exact Or.inl hl
                    · exact Or.inr ⟨t, ht, htc⟩

/-- Claim C2 (amended): on a message shorter than 4 bytes or with a bad
batch magic the parse-error counter is incremented and nothing is delivered
(the result state is exactly the input with `rxBatch` and `rxParseErr`
bumped); for every in-loop validation failure — a per-packet header that
does not fit, a bad per-packet magic byte, or a declared length exceeding
the remaining bytes — the loop returns, at any position and with any number
of entries still undelivered, exactly the current state with the counter
bumped once (an abort: no further packet of the message is delivered, and
the exactly-once disjunction shows no earlier increment happened); a failure
at the first packet entry therefore delivers zero packets, with the result
state pinned exactly.  At most the declared packet count is delivered, but
packets validated before the failing entry have already been handed to the
packet handler, so delivery of a malformed message can be partial. -/
theorem c2_parse_failure_handling :
    (∀ (s : VethIFZmq) (stream : List Nat), stream.length < 4 →
      onRxStream s stream = some (bumpParseErr
        { s with stats := { s.stats with rxBatch := s.stats.rxBatch + 1 } })) ∧
    (∀ (s : VethIFZmq) (stream : List Nat), 4 ≤ stream.length →
      (u32at stream 0 &&& 0xffff0000) / 65536 ≠ 0xBEEF →
      onRxStream s stream = some (bumpParseErr
        { s with stats := { s.stats with rxBatch := s.stats.rxBatch + 1 } })) ∧
    (∀ (s s' : VethIFZmq) (stream : List Nat), s.useVyos = false →
      onRxStream s stream = some s' →
      (s'.stats.rxParseErr = s.stats.rxParseErr ∨
        s'.stats.rxParseErr = s.stats.rxParseErr + 1) ∧
      s'.delivered.length ≤ s.delivered.length + (u32at stream 0 &&& 0x0000ffff)) ∧
    (∀ (stream : List Nat) (r : Nat) (s : VethIFZmq) (of : Nat),
      stream.length < (of + 4) % 65536 →
      rxLoop stream (r + 1) s of = some (bumpParseErr s)) ∧
    (∀ (stream : List Nat) (r : Nat) (s : VethIFZmq) (of : Nat),
      ¬ stream.length < (of + 4) % 65536 → ¬ (of + 4) % 65536 < of →
      u32at stream of &&& 0xff000000 ≠ 0xAA000000 →
      rxLoop stream (r + 1) s of = some (bumpParseErr s)) ∧
    (∀ (stream : List Nat) (r : Nat) (s : VethIFZmq) (of : Nat),
      ¬ stream.length < (of + 4) % 65536 → ¬ (of + 4) % 65536 < of →
      u32at stream of &&& 0xff000000 = 0xAA000000 →
      stream.length < (of + 4 + (u32at stream of &&& 0x0000ffff)) % 65536 →
      rxLoop stream (r + 1) s of = some (bumpParseErr s)) ∧
    (∀ (s s' : VethIFZmq) (stream : List Nat), s.useVyos = false →
      onRxStream s stream = some s' →
      s'.stats.rxParseErr = s.stats.rxParseErr ∨
      ∃ t, s' = bumpParseErr t ∧ t.stats.rxParseErr = s.stats.rxParseErr) ∧
    (∀ (s : VethIFZmq) (stream : List Nat), 4 ≤ stream.length →
      (u32at stream 0 &&& 0xffff0000) / 65536 = 0xBEEF →
      u32at stream 0 &&& 0x0000ffff ≠ 0 →
      (stream.length < 8 ∨
        (¬ stream.length < 8 ∧ u32at stream 4 &&& 0xff000000 ≠ 0xAA000000) ∨
        (¬ stream.length < 8 ∧ u32at stream 4 &&& 0xff000000 = 0xAA000000 ∧
          stream.length < (8 + (u32at stream 4 &&& 0x0000ffff)) % 65536)) →
      onRxStream s stream = some (bumpParseErr
        { s with stats := { s.stats with rxBatch := s.stats.rxBatch + 1 } })) := by
  refine ⟨?_, ?_, ?_, ?_, ?_, ?_, ?_, ?_⟩
  · intro s stream h
    simp only [onRxStream]
    rw [if_pos h]
  · intro s stream h hm
    simp only [onRxStream]
    rw [if_neg (Nat.not_lt.mpr h), if_pos hm]
  · intro s s' stream hv h
    simp only [onRxStream] at h
    split at h
    · obtain rfl := Option.some.inj h
      exact ⟨Or.inr rfl, by simp [bumpParseErr]⟩
    · split at h
      · obtain rfl := Option.some.inj h
        exact ⟨Or.inr rfl, by simp [bumpParseErr]⟩
      · have hres := rxLoop_err_once stream _ _ _ _ h hv
        exact hres
  · exact rxLoop_fail_header_short
  · exact rxLoop_fail_bad_magic
  · exact rxLoop_fail_pkt_too_long
  · intro s s' stream hv h
    simp only [onRxStream] at h
    split at h
    · exact Or.inr ⟨_, (Option.some.inj h).symm, rfl⟩
    · split at h
      · exact Or.inr ⟨_, (Option.some.inj h).symm, rfl⟩
      · have hres := rxLoop_parse_outcome stream _ _ _ _ h hv
        rcases hres with hl | ⟨t, ht, htc⟩
        · exact Or.inl hl
        · exact Or.inr ⟨t, ht, htc⟩
  · intro s stream h4 hmagic hpk hcase
    simp only [onRxStream]
    rw [if_neg (Nat.not_lt.mpr h4), if_neg (fun hn => hn hmagic)]
    obtain ⟨k, hk⟩ := Nat.exists_eq_succ_of_ne_zero hpk
    rw [hk]
    rcases hcase with hc | ⟨hna, hmg⟩ | ⟨hna, hmg, hlen⟩
    · exact rxLoop_fail_header_short stream k _ 4 (by omega)
    · exact rxLoop_fail_bad_magic stream k _ 4 (by omega) (by omega) hmg
    · exact rxLoop_fail_pkt_too_long stream k _ 4 (by omega) (by omega) hmg
        (by omega)

/-- Witness for C2's amended theorem: a 1-byte message at the concrete
initial state. -/
theorem c2_parse_failure_handling_witness :
    onRxStream veth0 [7] = some (bumpParseErr
      { veth0 with stats :=
        { veth0.stats with rxBatch := veth0.stats.rxBatch + 1 } }) :=
  c2_parse_failure_handling.1 veth0 [7] (by decide)

/-- The serialization loop succeeds on any all-contiguous batch. -/
theorem flushLoop_total :
    ∀ (vec : List Mbuf) (buf : List Nat),
      (∀ x ∈ vec, x.isContiguous = true) → ∃ out, flushLoop vec buf = some out := by
  intro vec
  induction vec with
  | nil => intro buf _; exact ⟨buf, rfl⟩
  | cons m rest ih =>
      intro buf h
      have hm : m.isContiguous = true := h m (by simp)
      simp only [flushLoop, hm, if_true]
      exact ih _ (fun x hx => h x (by simp [hx]))

/-- Go's `FlushTx` on an all-contiguous batch never hits the fatal branch: it
returns a state with an empty batch; on an empty batch it is the identity,
and on a non-empty one it appends exactly one wire message and zeroes the
buffered-payload size. -/
theorem flushTx_spec {s : VethIFZmq} (h : ∀ x ∈ s.vec, x.isContiguous = true) :
    (s.vec = [] → flushTx s = some s) ∧
    (s.vec ≠ [] → ∃ t, flushTx s = some t ∧ t.vec = [] ∧ t.txVecSize = 0 ∧
      t.sent = s.sent ++ [(flushLoop s.vec
        (u32bytes (0xBEEF * 65536 + s.vec.length))).getD []] ∧
      t.delivered = s.delivered ∧ t.stats.txPkts = s.stats.txPkts) := by
  constructor
  · intro he
    simp [flushTx, he]
  · intro hne
    obtain ⟨out, hout⟩ :=
      flushLoop_total s.vec (u32bytes (0xBEEF * 65536 + s.vec.length)) h
    have he : s.vec.isEmpty = false := by
      cases hv : s.vec with
      | nil => exact absurd hv hne
      | cons a l => rfl
    refine ⟨{ s with
      vec := []
      txVecSize := 0
      sent := s.sent ++ [out]
      stats := { s.stats with txBatch := s.stats.txBatch + 1 } },
      ?_, rfl, rfl, ?_, rfl, rfl⟩
    · simp [flushTx, he, hout]
    · simp [hout]

/-- A frame passed through `Send`'s normalization step is contiguous. -/
theorem normalized_contiguous (m : Mbuf) :
    (if m.isContiguous then m else m.getContiguous).isContiguous = true := by
  by_cases hm : m.isContiguous = true
  · simp [hm]
  · rw [Bool.not_eq_true] at hm
    have hne : ¬ m.segs.length = 1 := by
      simpa [Mbuf.isContiguous] using hm
    simp [Mbuf.isContiguous, Mbuf.getContiguous, hne]

/-- Claim C9: every frame accepted by `Send` is stored in the pending batch
in contiguous form, and under the invariant that every batched frame entered
via `Send` (an all-contiguous batch) the fatal non-contiguous branch of the
wire encoder is unreachable: `FlushTx` always succeeds, and `Send` succeeds
and preserves the invariant. -/
theorem c9_contiguous_batch_invariant (s : VethIFZmq) (m : Mbuf)
    (h : ∀ x ∈ s.vec, x.isContiguous = true) :
    (∃ t, flushTx s = some t) ∧
    (∃ s', send s m = some s' ∧ ∀ x ∈ s'.vec, x.isContiguous = true) := by
  have hflush : ∀ (u : VethIFZmq), (∀ x ∈ u.vec, x.isContiguous = true) →
      ∃ t, flushTx u = some t ∧ ∀ x ∈ t.vec, x.isContiguous = true := by
    intro u hu
    by_cases hv : u.vec = []
    · exact ⟨u, ((flushTx_spec hu).1 hv), fun x hx => hu x hx⟩
    · obtain ⟨t, ht, htv, _⟩ := (flushTx_spec hu).2 hv
      exact ⟨t, ht, fun x hx => by rw [htv] at hx; cases hx⟩
  constructor
  · obtain ⟨t, ht, _⟩ := hflush s h
    exact ⟨t, ht⟩
  · simp only [send]
    split
    · next hstep =>
        split at hstep
        · obtain ⟨t, ht, _⟩ := hflush
            { s with stats := { s.stats with
              txPkts := s.stats.txPkts + 1
              txBytes := s.stats.txBytes + m.pktLen } } h
          rw [ht] at hstep
          cases hstep
        · cases hstep
    · next s2 hstep =>
        have hs2 : ∀ x ∈ s2.vec, x.isContiguous = true := by
          split at hstep
          · obtain ⟨t, ht, htc⟩ := hflush
              { s with stats := { s.stats with
                txPkts := s.stats.txPkts + 1
                txBytes := s.stats.txBytes + m.pktLen } } h
            rw [ht] at hstep
            obtain rfl := Option.some.inj hstep
            exact htc
          · obtain rfl := Option.some.inj hstep
            exact h
        set m1 := (if m.isContiguous then m else m.getContiguous) with hm1
        have h3 : ∀ x ∈ s2.vec ++ [m1], x.isContiguous = true := by
          intro x hx
          rcases List.mem_append.mp hx with hx | hx
          · exact hs2 x hx
          · rw [List.mem_singleton.mp hx, hm1]
            exact normalized_contiguous m
        split
        · exact hflush
            { s2 with vec := s2.vec ++ [m1], txVecSize := s2.txVecSize + m.pktLen } h3
        · exact ⟨{ s2 with
            vec := s2.vec ++ [m1]
            txVecSize := s2.txVecSize + m.pktLen }, rfl, h3⟩

/-- Witness for C9: the invariant applied at the empty transport state with
a two-segment (non-contiguous) frame. -/
theorem c9_contiguous_batch_invariant_witness :
    (∃ t, flushTx veth0 = some t) ∧
    (∃ s', send veth0 ⟨[[1, 2], [3]], 5⟩ = some s' ∧
      ∀ x ∈ s'.vec, x.isContiguous = true) :=
  c9_contiguous_batch_invariant veth0 ⟨[[1, 2], [3]], 5⟩ (by simp [veth0])

/-- A contiguous 100-byte frame on vport 0. -/
def frame100 : Mbuf := ⟨[List.replicate 100 0], 0⟩

/-- Iterated sends: `n` consecutive `Send`s of 100-byte frames starting from the empty
transport state. -/
def sendN : Nat → Option VethIFZmq
  | 0 => some veth0
  | n + 1 => (sendN n).bind (fun s => send s frame100)

/-- The packet count carried in a wire message's batch header (its low 16
bits, i.e. bytes 2 and 3). -/
def msgPktCount (msg : List Nat) : Nat := u16at msg 2

set_option maxRecDepth 200000 in
/-- Claim C8: batching ceilings.  (General part) when the buffered payload
would reach the 32 KiB ceiling, `Send` flushes the pending batch before
appending: the batch afterwards holds exactly the new frame, the buffered
size restarts at its length, and one more wire message has been sent.
(Scenario) sending 65 contiguous 100-byte frames triggers exactly one flush,
which happens during send 64 and therefore before the 65th frame is
appended: after 63 sends nothing was sent, after 64 sends exactly one wire
message with packet count 64 was sent and the batch is empty, after 65 sends
still only that message was sent with the 65th frame pending, and flushing
then yields two wire messages with packet counts 64 and 1. -/
theorem c8_batch_ceilings :
    (∀ (s : VethIFZmq) (m : Mbuf), (∀ x ∈ s.vec, x.isContiguous = true) →
      s.vec ≠ [] → s.txVecSize + m.pktLen ≥ ZMQ_TX_MAX_BUFFER_SIZE →
      ∃ s', send s m = some s' ∧
        s'.vec = [if m.isContiguous then m else m.getContiguous] ∧
        s'.txVecSize = m.pktLen ∧
        s'.sent.length = s.sent.length + 1) ∧
    (sendN 63).map (fun s => (s.sent.length, s.vec.length)) = some (0, 63) ∧
    (sendN 64).map (fun s => (s.sent.map msgPktCount, s.vec.length)) =
      some ([64], 0) ∧
    (sendN 65).map (fun s => (s.sent.map msgPktCount, s.vec.length)) =
      some ([64], 1) ∧
    ((sendN 65).bind flushTx).map (fun s => s.sent.map msgPktCount) =
      some ([64, 1]) := by
  refine ⟨?_, by rfl, by rfl, by rfl, by rfl⟩
  intro s m h hne hc
  unfold send
  dsimp only
  rw [if_pos hc]
  have hspec := @flushTx_spec
    { s with stats := { s.stats with
      txPkts := s.stats.txPkts + 1
      txBytes := s.stats.txBytes + m.pktLen } } h
  obtain ⟨t, ht, htv, htx, hsent, hdel, hpk⟩ := hspec.2 hne
  rw [ht]
  dsimp only
  rw [htv]
  rw [if_neg (by simp [ZMQ_TX_PKT_BURST_SIZE])]
  refine ⟨_, rfl, by simp, by simp [htx], ?_⟩
  rw [hsent]
  simp

/-- A transport state one 100-byte frame short of the 32 KiB payload
ceiling. -/
def vethNearFull : VethIFZmq :=
  { veth0 with vec := [frame100], txVecSize := 32668 }

/-- Witness for C8: the flush-before-append behaviour of the payload ceiling
at a concrete nearly-full state. -/
theorem c8_batch_ceilings_witness :
    ∃ s', send vethNearFull frame100 = some s' ∧
      s'.vec = [if frame100.isContiguous then frame100
        else frame100.getContiguous] ∧
      s'.txVecSize = frame100.pktLen ∧
      s'.sent.length = vethNearFull.sent.length + 1 :=
  c8_batch_ceilings.1 vethNearFull frame100 (by decide) (by decide) (by decide)

end TrexEmu
